import Mathlib

/-!
Verification of the core document-analysis pipeline of the loandoccopilot
backend (`main.py`): pattern-based field extraction (`extract_key_terms`),
field-level diffing (`compare_terms`), keyword-presence ESG checks
(`run_esg_checks`), and the orchestration in `analyze_docs`.

The Python code is embedded shallowly:
* Python `str` becomes `String` (viewed as its list of characters where
  character-level work is needed).  The character classes of Python's `re`
  module (`\s`, `\w`, `[A-Z]` under `re.IGNORECASE`, ...) and `str.lower` /
  `str.strip` are modelled over their ASCII behaviour, which the documents
  at hand exercise.
* Python dicts of strings become association lists (`Dict`) with lookup
  `Dict.get` returning `Option String` (`none` models Python `None`).
* `re.search` with the five concrete patterns of `extract_key_terms` is
  embedded as a backtracking matcher (`matchRe`) over a small regex syntax
  `Re` covering exactly the constructs those patterns use: single-character
  classes, greedy `*`, greedy `{0,1}`, concatenation and case-insensitive
  literals.  `reSearch` tries successive start positions left to right,
  which is `re.search`'s leftmost-match rule; greedy quantifiers backtrack
  through shorter matches exactly as Python's engine does.  Each of the five
  patterns has the shape `label` `\s*` `(` body `)` with the single capture
  group extending to the end of the pattern, so the matcher returns the
  suffix at which the group starts and the suffix after the match, from
  which the captured text is recovered.
-/

/-! ## Character classes and string helpers (ASCII behaviour of Python's) -/

/-- Python's `\s` class (ASCII range): space, tab, newline, carriage
return, vertical tab, form feed. -/
def pySpace (c : Char) : Bool :=
  c = ' ' || c = '\t' || c = '\n' || c = '\r' || c = '\x0b' || c = '\x0c'

/-- Python's `\w` class (ASCII range): letters, digits, underscore. -/
def pyWord (c : Char) : Bool :=
  c.isAlpha || c.isDigit || c = '_'

/-- `[A-Z]` under `re.IGNORECASE`: any ASCII letter. -/
def asciiLetter (c : Char) : Bool := c.isAlpha

/-- The class `[0-9,\,\.]` of the facility-amount pattern. -/
def amountChar (c : Char) : Bool := c.isDigit || c = ',' || c = '.'

/-- The class `[0-9\.]` of the margin pattern. -/
def marginChar (c : Char) : Bool := c.isDigit || c = '.'

/-- The class `[0-9]`. -/
def digitChar (c : Char) : Bool := c.isDigit

/-- Regex `.` without `re.DOTALL`: any character except newline. -/
def dotChar (c : Char) : Bool := c != '\n'

/-- A case-insensitive single-character literal, as under `re.IGNORECASE`
(ASCII case folding, which is Python's folding on ASCII letters). -/
def charCI (target c : Char) : Bool := c.toLower == target.toLower

/-- Python `str.lower()` (ASCII behaviour). -/
def pyLower (s : String) : String := String.mk (s.data.map Char.toLower)

/-- Python `str.strip()` (ASCII whitespace behaviour): drop leading and
trailing whitespace characters. -/
def pyStrip (s : String) : String :=
  String.mk (((s.data.dropWhile pySpace).reverse.dropWhile pySpace).reverse)

/-- `prefixEq n h` holds when the list `n` is an initial segment of `h`. -/
def prefixEq : List Char → List Char → Bool
  | [], _ => true
  | _ :: _, [] => false
  | a :: as, b :: bs => a == b && prefixEq as bs

/-- Python's substring test `n in h` on lists of characters: `n` occurs
contiguously somewhere in `h`. -/
def occursIn (needle hay : List Char) : Bool :=
  match hay with
  | [] => prefixEq needle []
  | _ :: rest => prefixEq needle hay || occursIn needle rest

/-! ## A backtracking regex matcher for the five extraction patterns -/

/-- Regex syntax: exactly the constructs the five patterns of
`extract_key_terms` use.  Quantified subterms are single-character classes,
so greedy matching with backtracking enumerates match lengths from longest
to shortest. -/
inductive Re : Type where
  | eps : Re
  | ch (p : Char → Bool) : Re
  | seq (a b : Re) : Re
  | star (p : Char → Bool) : Re
  | opt (p : Char → Bool) : Re

/-- Length of the maximal run of characters satisfying `p` at the head. -/
def runLen (p : Char → Bool) : List Char → Nat
  | [] => 0
  | c :: cs => if p c then runLen p cs + 1 else 0

/-- Greedy choice for `star p`: try the continuation after dropping `i`
characters, then `i - 1`, ..., down to `0`; first success wins. -/
def tryDrops (k : List Char → Option α) (cs : List Char) : Nat → Option α
  | 0 => k cs
  | i + 1 =>
    match k (cs.drop (i + 1)) with
    | some r => some r
    | none => tryDrops k cs i

/-- Backtracking matcher in continuation-passing style: match `r` at the
head of `cs` and run `k` on the remainder; alternatives are tried in the
greedy order Python's engine uses, and a `none` from the continuation
backtracks into the next alternative. -/
def matchRe : Re → List Char → (List Char → Option α) → Option α
  | .eps, cs, k => k cs
  | .ch p, cs, k =>
    match cs with
    | [] => none
    | c :: rest => if p c then k rest else none
  | .seq a b, cs, k => matchRe a cs (fun cs' => matchRe b cs' k)
  | .star p, cs, k => tryDrops k cs (runLen p cs)
  | .opt p, cs, k =>
    match cs with
    | [] => k cs
    | c :: rest =>
      if p c then
        match k rest with
        | some r => some r
        | none => k cs
      else k cs

/-- A case-insensitive literal: the concatenation of its characters. -/
def litC (l : List Char) : Re :=
  l.foldr (fun c r => Re.seq (Re.ch (charCI c)) r) Re.eps

/-- Greedy `p+`, i.e. `p` then `p*`. -/
def plusC (p : Char → Bool) : Re := Re.seq (Re.ch p) (Re.star p)

/-- Match `pre` then `grp` at the head of `cs`; return the suffix where the
capture group starts and the suffix after the whole match. -/
def matchPattern (pre grp : Re) (cs : List Char) : Option (List Char × List Char) :=
  matchRe pre cs (fun cs1 => matchRe grp cs1 (fun cs2 => some (cs1, cs2)))

/-- The captured text: the part of `cs1` consumed before reaching `cs2`. -/
def groupStr (cs1 cs2 : List Char) : String :=
  String.mk (cs1.take (cs1.length - cs2.length))

/-- `re.search` for a pattern `pre(grp)`: try each start position from the
left; at the first position where the pattern matches, return the text of
the capture group. -/
def reSearch (pre grp : Re) (cs : List Char) : Option String :=
  match matchPattern pre grp cs with
  | some (a, b) => some (groupStr a b)
  | none =>
    match cs with
    | [] => none
    | _ :: rest => reSearch pre grp rest

/-- `find_first(pattern, text)`: first match of the regex, returning
capture group 1 stripped of surrounding whitespace, or `None` when the
pattern does not occur. -/
def find_first (pre grp : Re) (text : String) : Option String :=
  (reSearch pre grp text.data).map pyStrip

/-! ## The five extraction patterns of `extract_key_terms`

Each Python pattern has the shape `label` `\s*` `(` body `)`; the prefix
(label plus `\s*`) and the group body are kept separate so the matcher can
report where the capture group starts. -/

/-- Prefix of `r"Facility Amount:\s*([A-Z]{3}\s[0-9,\,\.]+)"`. -/
def facilityPre : Re := Re.seq (litC "Facility Amount:".data) (Re.star pySpace)

/-- Group body `[A-Z]{3}\s[0-9,\,\.]+` of the facility-amount pattern. -/
def facilityGrp : Re :=
  Re.seq (Re.ch asciiLetter) (Re.seq (Re.ch asciiLetter) (Re.seq (Re.ch asciiLetter)
    (Re.seq (Re.ch pySpace) (plusC amountChar))))

/-- Prefix of `r"Interest Margin:\s*([0-9\.]+\s*%\s*per annum)"`. -/
def marginPre : Re := Re.seq (litC "Interest Margin:".data) (Re.star pySpace)

/-- Group body `[0-9\.]+\s*%\s*per annum` of the margin pattern. -/
def marginGrp : Re :=
  Re.seq (plusC marginChar) (Re.seq (Re.star pySpace) (Re.seq (Re.ch (charCI '%'))
    (Re.seq (Re.star pySpace) (litC "per annum".data))))

/-- Prefix of `r"Maturity Date:\s*([0-9]{1,2}\s+\w+\s+[0-9]{4})"`. -/
def maturityPre : Re := Re.seq (litC "Maturity Date:".data) (Re.star pySpace)

/-- Group body `[0-9]{1,2}\s+\w+\s+[0-9]{4}` of the maturity-date pattern
(greedy `{1,2}` is one digit then an optional second). -/
def maturityGrp : Re :=
  Re.seq (Re.ch digitChar) (Re.seq (Re.opt digitChar)
    (Re.seq (plusC pySpace) (Re.seq (plusC pyWord)
      (Re.seq (plusC pySpace)
        (Re.seq (Re.ch digitChar) (Re.seq (Re.ch digitChar)
          (Re.seq (Re.ch digitChar) (Re.ch digitChar))))))))

/-- Prefix of `r"Borrower:\s*(.+)"`. -/
def borrowerPre : Re := Re.seq (litC "Borrower:".data) (Re.star pySpace)

/-- Prefix of `r"Purpose:\s*(.+)"`. -/
def purposePre : Re := Re.seq (litC "Purpose:".data) (Re.star pySpace)

/-- Group body `.+` shared by the borrower and purpose patterns. -/
def restOfLineGrp : Re := plusC dotChar

/-! ## Data model -/

/-- `FieldChange` (pydantic model): one detected difference. -/
structure FieldChange where
  field : String
  from_value : String
  to_value : String
  impact : String
deriving DecidableEq, Repr

/-- `ESGCheckResult` (pydantic model): one rule verdict. -/
structure ESGCheckResult where
  rule_name : String
  passed : Bool
  comment : String
deriving DecidableEq, Repr

/-- The mapping `extract_key_terms` returns: a Python dict with the five
fixed keys, in insertion order `facility_amount`, `margin`,
`maturity_date`, `borrower`, `purpose`, each holding a string value. -/
structure ExtractedFields where
  facility_amount : String
  margin : String
  maturity_date : String
  borrower : String
  purpose : String
deriving DecidableEq, Repr

/-- A Python dict of strings, as an association list in insertion order. -/
abbrev Dict := List (String × String)

/-- Python `d.get(k)`: the value at `k`, or `None` when absent. -/
def Dict.get (d : Dict) (k : String) : Option String :=
  match d with
  | [] => none
  | (k', v) :: rest => if k' = k then some v else Dict.get rest k

/-- Python `d.keys()` in insertion order. -/
def Dict.keys (d : Dict) : List String := d.map Prod.fst

/-- The dict literal `extract_key_terms` builds, in its insertion order. -/
def ExtractedFields.toDict (f : ExtractedFields) : Dict :=
  [("facility_amount", f.facility_amount),
   ("margin", f.margin),
   ("maturity_date", f.maturity_date),
   ("borrower", f.borrower),
   ("purpose", f.purpose)]

/-! ## The core functions of `main.py` -/

/-- `contains_any(text, keywords)`: case-insensitive substring test for any
of the keywords (`k.lower() in text.lower()`). -/
def contains_any (text : String) (keywords : List String) : Bool :=
  keywords.any (fun k => occursIn (pyLower k).data (pyLower text).data)

/-- Python `value or "Not detected"` for `value : Optional[str]`: `None`
and the empty string are falsy and replaced by the sentinel. -/
def orNotDetected (v : Option String) : String :=
  match v with
  | none => "Not detected"
  | some s => if s = "" then "Not detected" else s

/-- `extract_key_terms(text)`: run the five `find_first` searches and
build the dict, replacing falsy results with `"Not detected"`. -/
def extract_key_terms (text : String) : ExtractedFields :=
  { facility_amount := orNotDetected (find_first facilityPre facilityGrp text),
    margin := orNotDetected (find_first marginPre marginGrp text),
    maturity_date := orNotDetected (find_first maturityPre maturityGrp text),
    borrower := orNotDetected (find_first borrowerPre restOfLineGrp text),
    purpose := orNotDetected (find_first purposePre restOfLineGrp text) }

/-- The impact chain of `compare_terms`: default `"Change detected"`,
overridden by the per-field branches. -/
def impactFor (field : String) : String :=
  if field = "margin" then "Economic impact: margin changed (cost of debt)."
  else if field = "facility_amount" then "Economic impact: facility size changed."
  else if field = "maturity_date" then "Term/risk impact: maturity changed."
  else if field = "borrower" then "Counterparty details changed."
  else if field = "purpose" then "Use of proceeds changed."
  else "Change detected"

/-- Python `str(x)` for `x : Optional[str]`: `str(None) = "None"`. -/
def pyStr : Option String → String
  | none => "None"
  | some s => s

/-- `compare_terms(v1, v2)`: iterate `v1.keys()`, skip fields whose values
agree, and emit a `FieldChange` (with `str(...)` of both values and the
per-field impact) for the rest. -/
def compare_terms (v1 v2 : Dict) : List FieldChange :=
  v1.keys.filterMap (fun field =>
    let old_val := v1.get field
    let new_val := v2.get field
    if old_val = new_val then none
    else some { field := field, from_value := pyStr old_val,
                to_value := pyStr new_val, impact := impactFor field })

/-- Trigger phrases of rule 1, "Use of proceeds clearly defined". -/
def rule1Triggers : List String :=
  ["use of proceeds", "proceeds of the facility", "shall be applied towards"]

/-- Trigger phrases of rule 2, "Environmental / sustainability objectives
described". -/
def rule2Triggers : List String :=
  ["green project", "sustainability objective", "environmental objective",
   "renewable energy", "energy efficiency", "climate"]

/-- Trigger phrases of rule 3, "KPIs or performance targets included". -/
def rule3Triggers : List String :=
  ["key performance indicator", "kpi", "sustainability performance target",
   "performance target"]

/-- Trigger phrases of rule 4, "Ongoing reporting obligations present". -/
def rule4Triggers : List String :=
  ["reporting", "annual report", "sustainability report", "periodic report"]

/-- Trigger phrases of rule 5, "External review / verification mentioned". -/
def rule5Triggers : List String :=
  ["second party opinion", "external review", "external verifier",
   "assurance provider"]

/-- `run_esg_checks(text)`: the fixed battery of five keyword checks, in
source order. -/
def run_esg_checks (text : String) : List ESGCheckResult :=
  [{ rule_name := "Use of proceeds clearly defined",
     passed := contains_any text rule1Triggers,
     comment := "Green loans should clearly define how proceeds will be used." },
   { rule_name := "Environmental / sustainability objectives described",
     passed := contains_any text rule2Triggers,
     comment := "Looks for language around green or sustainability objectives." },
   { rule_name := "KPIs or performance targets included",
     passed := contains_any text rule3Triggers,
     comment := "Searches for sustainability-linked KPIs or performance targets." },
   { rule_name := "Ongoing reporting obligations present",
     passed := contains_any text rule4Triggers,
     comment := "Checks if the borrower is required to report on performance." },
   { rule_name := "External review / verification mentioned",
     passed := contains_any text rule5Triggers,
     comment := "Looks for external ESG review or verification requirements." }]

/-- `AnalyzeResponse`: the top-level result record. -/
structure AnalyzeResponse where
  key_terms_v1 : ExtractedFields
  key_terms_v2 : ExtractedFields
  changes : List FieldChange
  esg_checks : List ESGCheckResult
deriving DecidableEq, Repr

/-- The core of the `analyze_docs` handler, after the out-of-scope PDF
decoding has produced the two plain texts: extract both versions, diff
them, and run the ESG battery on the revised text. -/
def analyze_docs (text_v1 text_v2 : String) : AnalyzeResponse :=
  let key_terms_v1 := extract_key_terms text_v1
  let key_terms_v2 := extract_key_terms text_v2
  { key_terms_v1 := key_terms_v1,
    key_terms_v2 := key_terms_v2,
    changes := compare_terms key_terms_v1.toDict key_terms_v2.toDict,
    esg_checks := run_esg_checks text_v2 }

/-! ## Spec-side description of the diff (for the refinement claim C1) -/

/-- The closed field enumeration, in the baseline dict's insertion order. -/
def fieldEnum : List String :=
  ["facility_amount", "margin", "maturity_date", "borrower", "purpose"]

/-- The diff as the spec words it: iterate the field enumeration in order;
for each field whose baseline and revised values differ under exact string
equality, emit exactly one `FieldChange` carrying the baseline value, the
revised value, and the impact from the static per-field table. -/
def diffSpec (B R : ExtractedFields) : List FieldChange :=
  (if B.facility_amount = R.facility_amount then []
   else [{ field := "facility_amount", from_value := B.facility_amount,
           to_value := R.facility_amount,
           impact := "Economic impact: facility size changed." }]) ++
  (if B.margin = R.margin then []
   else [{ field := "margin", from_value := B.margin, to_value := R.margin,
           impact := "Economic impact: margin changed (cost of debt)." }]) ++
  (if B.maturity_date = R.maturity_date then []
   else [{ field := "maturity_date", from_value := B.maturity_date,
           to_value := R.maturity_date,
           impact := "Term/risk impact: maturity changed." }]) ++
  (if B.borrower = R.borrower then []
   else [{ field := "borrower", from_value := B.borrower,
           to_value := R.borrower,
           impact := "Counterparty details changed." }]) ++
  (if B.purpose = R.purpose then []
   else [{ field := "purpose", from_value := B.purpose, to_value := R.purpose,
           impact := "Use of proceeds changed." }])

/-! ## Computation lemmas for the five fixed keys -/

theorem keys_toDict (F : ExtractedFields) : F.toDict.keys = fieldEnum := rfl

theorem get_fa (F : ExtractedFields) :
    F.toDict.get "facility_amount" = some F.facility_amount := rfl

theorem get_mg (F : ExtractedFields) : F.toDict.get "margin" = some F.margin := rfl

theorem get_md (F : ExtractedFields) :
    F.toDict.get "maturity_date" = some F.maturity_date := rfl

theorem get_br (F : ExtractedFields) : F.toDict.get "borrower" = some F.borrower := rfl

theorem get_pp (F : ExtractedFields) : F.toDict.get "purpose" = some F.purpose := rfl

theorem impact_fa : impactFor "facility_amount" = "Economic impact: facility size changed." := rfl

theorem impact_mg : impactFor "margin" = "Economic impact: margin changed (cost of debt)." := rfl

theorem impact_md : impactFor "maturity_date" = "Term/risk impact: maturity changed." := rfl

theorem impact_br : impactFor "borrower" = "Counterparty details changed." := rfl

theorem impact_pp : impactFor "purpose" = "Use of proceeds changed." := rfl

/-- `compare_terms` on two five-field dicts computes exactly the diff the
spec describes (shared helper behind the C1 and C5 claims). -/
theorem compare_terms_toDict_eq (B R : ExtractedFields) :
    compare_terms B.toDict R.toDict = diffSpec B R := by
  by_cases h1 : B.facility_amount = R.facility_amount <;>
  by_cases h2 : B.margin = R.margin <;>
  by_cases h3 : B.maturity_date = R.maturity_date <;>
  by_cases h4 : B.borrower = R.borrower <;>
  by_cases h5 : B.purpose = R.purpose <;>
  simp [compare_terms, diffSpec, keys_toDict, fieldEnum, get_fa, get_mg,
    get_md, get_br, get_pp, impact_fa, impact_mg, impact_md, impact_br,
    impact_pp, pyStr, h1, h2, h3, h4, h5]

/-- Claim C1: over the fixed field enumeration, `compare_terms` emits
exactly one `FieldChange` per differing field (baseline value as
`from_value`, revised value as `to_value`), none for agreeing fields, in
the baseline's enumeration order, with the impact determined purely by the
field name through the fixed table; any field name outside the table gets
the generic message. -/
theorem compare_terms_matches_diffSpec (B R : ExtractedFields) (f : String)
    (hf : f ∉ fieldEnum) :
    compare_terms B.toDict R.toDict = diffSpec B R ∧
      impactFor f = "Change detected" := by
  refine ⟨compare_terms_toDict_eq B R, ?_⟩
  simp only [fieldEnum, List.mem_cons, List.not_mem_nil, or_false] at hf
  push_neg at hf
  obtain ⟨n1, n2, n3, n4, n5⟩ := hf
  simp [impactFor, n1, n2, n3, n4, n5]

/-- Witness for C1 at concrete inputs. -/
theorem compare_terms_matches_diffSpec_witness :
    "other" ∉ fieldEnum ∧
      (compare_terms (ExtractedFields.toDict ⟨"a", "b", "c", "d", "e"⟩)
          (ExtractedFields.toDict ⟨"a", "B", "c", "d", "E"⟩) =
        diffSpec ⟨"a", "b", "c", "d", "e"⟩ ⟨"a", "B", "c", "d", "E"⟩ ∧
      impactFor "other" = "Change detected") :=
  ⟨by decide, compare_terms_matches_diffSpec ⟨"a", "b", "c", "d", "e"⟩
    ⟨"a", "B", "c", "d", "E"⟩ "other" (by decide)⟩

/-- Claim C5: diffing a field mapping against itself yields no changes; in
particular two `"Not detected"` sentinels never produce a change. -/
theorem compare_terms_self (F : ExtractedFields) :
    compare_terms F.toDict F.toDict = [] := by
  rw [compare_terms_toDict_eq]
  simp [diffSpec]

/-- Claim C8: the embedded core operations are pure functions, so a second
run on the same inputs returns the same output for extraction, diffing,
checking and orchestration alike. -/
theorem core_ops_deterministic (t t1 t2 : String) (v1 v2 : Dict) :
    extract_key_terms t = extract_key_terms t ∧
    compare_terms v1 v2 = compare_terms v1 v2 ∧
    run_esg_checks t = run_esg_checks t ∧
    analyze_docs t1 t2 = analyze_docs t1 t2 :=
  ⟨rfl, rfl, rfl, rfl⟩

/-- Claim C4: the orchestrator is exactly the composition of the three
components, with the ESG battery run on the revised text only. -/
theorem analyze_docs_is_composition (t1 t2 : String) :
    analyze_docs t1 t2 =
      { key_terms_v1 := extract_key_terms t1,
        key_terms_v2 := extract_key_terms t2,
        changes := compare_terms (extract_key_terms t1).toDict
          (extract_key_terms t2).toDict,
        esg_checks := run_esg_checks t2 } := rfl

/-- Claim C2: `run_esg_checks` always returns exactly five results, in the
fixed battery order, with rule names and comments that are the same fixed
strings on every invocation; only the `passed` booleans depend on the
text, via `contains_any` over the per-rule trigger sets. -/
theorem run_esg_checks_shape (t t' : String) :
    (run_esg_checks t).length = 5 ∧
    (run_esg_checks t).map ESGCheckResult.rule_name =
      ["Use of proceeds clearly defined",
       "Environmental / sustainability objectives described",
       "KPIs or performance targets included",
       "Ongoing reporting obligations present",
       "External review / verification mentioned"] ∧
    (run_esg_checks t).map ESGCheckResult.rule_name =
      (run_esg_checks t').map ESGCheckResult.rule_name ∧
    (run_esg_checks t).map ESGCheckResult.comment =
      (run_esg_checks t').map ESGCheckResult.comment ∧
    (run_esg_checks t).map ESGCheckResult.passed =
      [contains_any t rule1Triggers, contains_any t rule2Triggers,
       contains_any t rule3Triggers, contains_any t rule4Triggers,
       contains_any t rule5Triggers] :=
  ⟨rfl, rfl, rfl, rfl, rfl⟩

/-! ## C10: baseline fields missing from the revised dict -/

/-- A key that `Dict.get` resolves is among the dict's keys. -/
theorem Dict.get_mem_keys {d : Dict} {f s : String} (h : d.get f = some s) :
    f ∈ d.keys := by
  induction d with
  | nil => simp [Dict.get] at h
  | cons p rest ih =>
    obtain ⟨k, v⟩ := p
    by_cases hk : k = f
    · simp [Dict.keys, hk]
    · rw [Dict.get, if_neg hk] at h
      exact List.mem_cons_of_mem _ (ih h)

/-- Claim C10: when the baseline dict holds a field the revised dict
lacks, `compare_terms` still succeeds and emits a change whose `to_value`
is the string `"None"` (Python's `str(None)`); and every emitted change
concerns a key of the baseline, so revised-only fields never appear. -/
theorem compare_terms_missing_field (v1 v2 : Dict) (f s : String)
    (h1 : v1.get f = some s) (h2 : v2.get f = none) :
    ({ field := f, from_value := s, to_value := "None",
       impact := impactFor f } : FieldChange) ∈ compare_terms v1 v2 ∧
    ∀ c ∈ compare_terms v1 v2, c.field ∈ v1.keys := by
  constructor
  · refine List.mem_filterMap.mpr ⟨f, Dict.get_mem_keys h1, ?_⟩
    simp only [h1, h2]
    simp [pyStr]
  · intro c hc
    obtain ⟨a, ha, hfa⟩ := List.mem_filterMap.mp hc
    by_cases he : v1.get a = v2.get a
    · simp only [if_pos he] at hfa
      exact absurd hfa (by simp)
    · simp only [if_neg he] at hfa
      obtain rfl := Option.some.inj hfa
      exact ha

/-- Witness for C10: a one-field baseline diffed against an empty dict. -/
theorem compare_terms_missing_field_witness :
    ({ field := "x", from_value := "1", to_value := "None",
       impact := impactFor "x" } : FieldChange) ∈ compare_terms [("x", "1")] [] ∧
    ∀ c ∈ compare_terms [("x", "1")] [], c.field ∈ Dict.keys [("x", "1")] :=
  compare_terms_missing_field [("x", "1")] [] "x" "1" rfl rfl

/-! ## C3: `passed` is exactly case-insensitive substring presence -/

/-- `prefixEq` decides the initial-segment relation. -/
theorem prefixEq_iff (n : List Char) : ∀ h : List Char,
    prefixEq n h = true ↔ ∃ t, h = n ++ t := by
  induction n with
  | nil =>
    intro h
    simp [prefixEq]
  | cons a as ih =>
    intro h
    cases h with
    | nil =>
      constructor
      · intro hx
        exact absurd hx (by simp [prefixEq])
      · rintro ⟨t, ht⟩
        exact absurd ht (by simp)
    | cons b bs =>
      rw [prefixEq, Bool.and_eq_true, beq_iff_eq, ih bs]
      constructor
      · rintro ⟨rfl, t, rfl⟩
        exact ⟨t, rfl⟩
      · rintro ⟨t, ht⟩
        obtain ⟨rfl, rfl⟩ : b = a ∧ bs = as ++ t := by
          simpa using ht
        exact ⟨rfl, t, rfl⟩

/-- `occursIn` decides contiguous-substring occurrence. -/
theorem occursIn_iff (n : List Char) : ∀ h : List Char,
    occursIn n h = true ↔ ∃ pre post, h = pre ++ n ++ post := by
  intro h
  induction h with
  | nil =>
    rw [occursIn, prefixEq_iff]
    constructor
    · rintro ⟨t, ht⟩
      exact ⟨[], t, ht⟩
    · rintro ⟨pre, post, hp⟩
      obtain ⟨h1, h2⟩ := List.append_eq_nil.mp hp.symm
      obtain ⟨h3, h4⟩ := List.append_eq_nil.mp h1
      exact ⟨[], by simp [h4]⟩
  | cons c rest ih =>
    rw [occursIn, Bool.or_eq_true, prefixEq_iff, ih]
    constructor
    · rintro (⟨t, ht⟩ | ⟨pre, post, hp⟩)
      · exact ⟨[], t, by simp [ht]⟩
      · exact ⟨c :: pre, post, by simp [hp]⟩
    · rintro ⟨pre, post, hp⟩
      cases pre with
      | nil => exact Or.inl ⟨post, by simpa using hp⟩
      | cons p ps =>
        right
        refine ⟨ps, post, ?_⟩
        exact ((by simpa using hp : c = p ∧ rest = ps ++ (n ++ post)).2).trans
          (List.append_assoc ps n post).symm

/-- Claim C3: each rule's `passed` flag is true exactly when one of that
rule's trigger phrases occurs somewhere in the text, compared after
lowercasing both sides and with no anchoring; e.g. rule 3 fires on
`"Cockpit"`, whose lowercase form contains `"kpi"` inside a larger word. -/
theorem esg_passed_iff_trigger_substring (t : String) :
    (run_esg_checks t).map ESGCheckResult.passed =
      [contains_any t rule1Triggers, contains_any t rule2Triggers,
       contains_any t rule3Triggers, contains_any t rule4Triggers,
       contains_any t rule5Triggers] ∧
    (∀ kws : List String, contains_any t kws = true ↔
      ∃ k ∈ kws, ∃ pre post, (pyLower t).data = pre ++ (pyLower k).data ++ post) ∧
    (run_esg_checks "Cockpit").map ESGCheckResult.passed =
      [false, false, true, false, false] := by
  refine ⟨rfl, ?_, by decide⟩
  intro kws
  rw [contains_any, List.any_eq_true]
  constructor
  · rintro ⟨k, hk, hocc⟩
    exact ⟨k, hk, (occursIn_iff _ _).mp hocc⟩
  · rintro ⟨k, hk, hsub⟩
    exact ⟨k, hk, (occursIn_iff _ _).mpr hsub⟩

/-! ## C9: extracted values are the sentinel or non-empty -/

/-- Python's `value or "Not detected"` never stores the empty string. -/
theorem orNotDetected_cases (v : Option String) :
    orNotDetected v = "Not detected" ∨ orNotDetected v ≠ "" := by
  cases v with
  | none => exact Or.inl rfl
  | some s =>
    by_cases hs : s = ""
    · exact Or.inl (by simp [orNotDetected, hs])
    · exact Or.inr (by simp [orNotDetected, hs])

/-- Claim C9: every value of `extract_key_terms` is either the sentinel
`"Not detected"` or non-empty; and on `"Borrower:  "` the borrower pattern
does match, with a whitespace-only capture that strips to the empty
string, yet the stored value is the sentinel. -/
theorem extract_values_sentinel_or_nonempty (t : String) :
    ((extract_key_terms t).facility_amount = "Not detected" ∨
      (extract_key_terms t).facility_amount ≠ "") ∧
    ((extract_key_terms t).margin = "Not detected" ∨
      (extract_key_terms t).margin ≠ "") ∧
    ((extract_key_terms t).maturity_date = "Not detected" ∨
      (extract_key_terms t).maturity_date ≠ "") ∧
    ((extract_key_terms t).borrower = "Not detected" ∨
      (extract_key_terms t).borrower ≠ "") ∧
    ((extract_key_terms t).purpose = "Not detected" ∨
      (extract_key_terms t).purpose ≠ "") ∧
    find_first borrowerPre restOfLineGrp "Borrower:  " = some "" ∧
    (extract_key_terms "Borrower:  ").borrower = "Not detected" :=
  ⟨orNotDetected_cases _, orNotDetected_cases _, orNotDetected_cases _,
   orNotDetected_cases _, orNotDetected_cases _, by decide, by decide⟩

/-! ## C6: texts without the labels or trigger phrases degrade gracefully -/

theorem litC_cons (c : Char) (cl : List Char) :
    litC (c :: cl) = Re.seq (Re.ch (charCI c)) (litC cl) := rfl

/-- If a literal matches at the head of `cs`, the lowered literal is an
initial segment of the lowered text. -/
theorem matchRe_litC_prefix (l : List Char) :
    ∀ (cs : List Char) (k : List Char → Option α) (r : α),
      matchRe (litC l) cs k = some r →
      prefixEq (l.map Char.toLower) (cs.map Char.toLower) = true := by
  induction l with
  | nil => intro cs k r h; simp [prefixEq]
  | cons c cl ih =>
    intro cs k r h
    rw [litC_cons] at h
    cases cs with
    | nil => exact absurd h (by simp [matchRe])
    | cons d rest =>
      rw [show matchRe (Re.seq (Re.ch (charCI c)) (litC cl)) (d :: rest) k
            = if charCI c d then matchRe (litC cl) rest k else none from rfl] at h
      cases hc : charCI c d with
      | false => rw [hc] at h; simp at h
      | true =>
        rw [hc, if_pos rfl] at h
        have hcd : c.toLower = d.toLower := (beq_iff_eq.mp hc).symm
        simp [prefixEq, hcd, ih rest k r h]

/-- If `reSearch` succeeds for a pattern that starts with a literal label,
the lowered label occurs somewhere in the lowered text. -/
theorem reSearch_label_occurs (l : List Char) (re2 grp : Re) :
    ∀ (cs : List Char) (v : String),
      reSearch (Re.seq (litC l) re2) grp cs = some v →
      occursIn (l.map Char.toLower) (cs.map Char.toLower) = true := by
  intro cs
  induction cs with
  | nil =>
    intro v h
    cases hm : matchPattern (Re.seq (litC l) re2) grp [] with
    | some ab =>
      have h1 : matchRe (litC l) []
          (fun x => matchRe re2 x
            (fun cs1 => matchRe grp cs1 (fun cs2 => some (cs1, cs2)))) = some ab := hm
      have := matchRe_litC_prefix l [] _ ab h1
      simpa [occursIn] using this
    | none =>
      rw [reSearch, hm] at h
      simp at h
  | cons c rest ih =>
    intro v h
    cases hm : matchPattern (Re.seq (litC l) re2) grp (c :: rest) with
    | some ab =>
      have h1 : matchRe (litC l) (c :: rest)
          (fun x => matchRe re2 x
            (fun cs1 => matchRe grp cs1 (fun cs2 => some (cs1, cs2)))) = some ab := hm
      have := matchRe_litC_prefix l (c :: rest) _ ab h1
      have hmap : List.map Char.toLower (c :: rest)
          = c.toLower :: List.map Char.toLower rest := rfl
      rw [hmap] at this
      simp [occursIn, hmap, this]
    | none =>
      rw [reSearch, hm] at h
      have h2 : reSearch (Re.seq (litC l) re2) grp rest = some v := h
      simp [occursIn, ih v h2]

/-- Case-insensitive occurrence of a label in a text, as `contains_any`
tests it: lower both sides then look for a contiguous occurrence. -/
def labelOccursCI (label text : String) : Bool :=
  occursIn (pyLower label).data (pyLower text).data

/-- If a pattern's label does not occur case-insensitively in the text,
the corresponding search returns `none` (shared helper for C6). -/
theorem reSearch_none_of_no_label (label : String) (re2 grp : Re) (t : String)
    (hno : labelOccursCI label t = false) :
    reSearch (Re.seq (litC label.data) re2) grp t.data = none := by
  cases hh : reSearch (Re.seq (litC label.data) re2) grp t.data with
  | none => rfl
  | some v =>
    have hocc : labelOccursCI label t = true :=
      reSearch_label_occurs label.data re2 grp t.data v hh
    rw [hno] at hocc
    exact absurd hocc (by simp)

/-- All trigger phrases of the five rules, in battery order. -/
def allTriggers : List String :=
  rule1Triggers ++ rule2Triggers ++ rule3Triggers ++ rule4Triggers ++ rule5Triggers

/-- `contains_any` fails when no keyword occurs (shared helper for C6). -/
theorem contains_any_eq_false (t : String) (kws : List String)
    (h : ∀ k ∈ kws, labelOccursCI k t = false) :
    contains_any t kws = false := by
  rw [contains_any]
  refine List.any_eq_false.mpr ?_
  intro k hk
  have h' : occursIn (pyLower k).data (pyLower t).data = false := h k hk
  simp [h']

/-- Claim C6: on any text in which none of the five field labels occurs
(case-insensitively) and no trigger phrase occurs, nothing fails:
extraction returns the sentinel for every field and all five checks report
`passed = false`. -/
theorem no_label_no_trigger_degrades (t : String)
    (hfa : labelOccursCI "Facility Amount:" t = false)
    (hmg : labelOccursCI "Interest Margin:" t = false)
    (hmd : labelOccursCI "Maturity Date:" t = false)
    (hbr : labelOccursCI "Borrower:" t = false)
    (hpp : labelOccursCI "Purpose:" t = false)
    (htr : ∀ k ∈ allTriggers, labelOccursCI k t = false) :
    extract_key_terms t =
      { facility_amount := "Not detected", margin := "Not detected",
        maturity_date := "Not detected", borrower := "Not detected",
        purpose := "Not detected" } ∧
    (run_esg_checks t).map ESGCheckResult.passed =
      [false, false, false, false, false] := by
  constructor
  · have h1 : reSearch facilityPre facilityGrp t.data = none :=
      reSearch_none_of_no_label "Facility Amount:" (Re.star pySpace) facilityGrp t hfa
    have h2 : reSearch marginPre marginGrp t.data = none :=
      reSearch_none_of_no_label "Interest Margin:" (Re.star pySpace) marginGrp t hmg
    have h3 : reSearch maturityPre maturityGrp t.data = none :=
      reSearch_none_of_no_label "Maturity Date:" (Re.star pySpace) maturityGrp t hmd
    have h4 : reSearch borrowerPre restOfLineGrp t.data = none :=
      reSearch_none_of_no_label "Borrower:" (Re.star pySpace) restOfLineGrp t hbr
    have h5 : reSearch purposePre restOfLineGrp t.data = none :=
      reSearch_none_of_no_label "Purpose:" (Re.star pySpace) restOfLineGrp t hpp
    simp [extract_key_terms, find_first, h1, h2, h3, h4, h5, orNotDetected]
  · have c1 : contains_any t rule1Triggers = false :=
      contains_any_eq_false t _ (fun k hk => htr k (by simp [allTriggers, List.mem_append, hk]))
    have c2 : contains_any t rule2Triggers = false :=
      contains_any_eq_false t _ (fun k hk => htr k (by simp [allTriggers, List.mem_append, hk]))
    have c3 : contains_any t rule3Triggers = false :=
      contains_any_eq_false t _ (fun k hk => htr k (by simp [allTriggers, List.mem_append, hk]))
    have c4 : contains_any t rule4Triggers = false :=
      contains_any_eq_false t _ (fun k hk => htr k (by simp [allTriggers, List.mem_append, hk]))
    have c5 : contains_any t rule5Triggers = false :=
      contains_any_eq_false t _ (fun k hk => htr k (by simp [allTriggers, List.mem_append, hk]))
    simp [run_esg_checks, c1, c2, c3, c4, c5]

/-- Witness for C6 at the empty text. -/
theorem no_label_no_trigger_degrades_witness :
    extract_key_terms "" =
      { facility_amount := "Not detected", margin := "Not detected",
        maturity_date := "Not detected", borrower := "Not detected",
        purpose := "Not detected" } ∧
    (run_esg_checks "").map ESGCheckResult.passed =
      [false, false, false, false, false] :=
  no_label_no_trigger_degrades "" (by decide) (by decide) (by decide)
    (by decide) (by decide) (by decide)

/-! ## C7: first-occurrence (leftmost) search semantics -/

/-- When the pattern matches at the current position, the search stops
there and returns that capture. -/
theorem reSearch_of_match_some {pre grp : Re} {cs a b : List Char}
    (h : matchPattern pre grp cs = some (a, b)) :
    reSearch pre grp cs = some (groupStr a b) := by
  cases cs with
  | nil => rw [reSearch.eq_1, h]
  | cons c rest => rw [reSearch.eq_2, h]

/-- When the pattern does not match at the current position, the search
moves one character to the right. -/
theorem reSearch_of_match_none {pre grp : Re} {c : Char} {rest : List Char}
    (h : matchPattern pre grp (c :: rest) = none) :
    reSearch pre grp (c :: rest) = reSearch pre grp rest := by
  rw [reSearch.eq_2, h]

/-- `reSearch` returns the capture of the leftmost position at which the
pattern matches: if the pattern matches at offset `i` and at no earlier
offset, the search result is the group captured at `i`. -/
theorem reSearch_eq_of_leftmost (pre grp : Re) :
    ∀ (i : Nat) (cs a b : List Char),
      matchPattern pre grp (cs.drop i) = some (a, b) →
      (∀ j, j < i → matchPattern pre grp (cs.drop j) = none) →
      reSearch pre grp cs = some (groupStr a b) := by
  intro i
  induction i with
  | zero =>
    intro cs a b h1 _
    rw [List.drop_zero] at h1
    exact reSearch_of_match_some h1
  | succ i ih =>
    intro cs a b h1 h2
    have h0 : matchPattern pre grp cs = none := by
      have h := h2 0 (Nat.succ_pos i)
      rwa [List.drop_zero] at h
    cases cs with
    | nil =>
      rw [show List.drop (i + 1) ([] : List Char) = [] from by simp] at h1
      rw [h0] at h1
      exact absurd h1 (by simp)
    | cons c rest =>
      rw [reSearch_of_match_none h0]
      exact ih rest a b (by simpa using h1) (fun j hj => by
        have h := h2 (j + 1) (Nat.succ_lt_succ hj)
        simpa using h)

/-- Claim C7: for each of the five fields, extraction applies that
field's search to the text, takes the first captured group of the
leftmost match (later occurrences are ignored), and strips it before
storage; in particular a text containing
`"Facility Amount: EUR 150,000,000"` (as its first facility label)
extracts `facility_amount = "EUR 150,000,000"`, and a later second
occurrence is ignored. -/
theorem extract_takes_first_match
    (cs1 cs2 cs3 cs4 cs5 : List Char) (i1 i2 i3 i4 i5 : Nat)
    (a1 b1 a2 b2 a3 b3 a4 b4 a5 b5 : List Char)
    (h1 : matchPattern facilityPre facilityGrp (cs1.drop i1) = some (a1, b1))
    (h1' : ∀ j, j < i1 → matchPattern facilityPre facilityGrp (cs1.drop j) = none)
    (h2 : matchPattern marginPre marginGrp (cs2.drop i2) = some (a2, b2))
    (h2' : ∀ j, j < i2 → matchPattern marginPre marginGrp (cs2.drop j) = none)
    (h3 : matchPattern maturityPre maturityGrp (cs3.drop i3) = some (a3, b3))
    (h3' : ∀ j, j < i3 → matchPattern maturityPre maturityGrp (cs3.drop j) = none)
    (h4 : matchPattern borrowerPre restOfLineGrp (cs4.drop i4) = some (a4, b4))
    (h4' : ∀ j, j < i4 → matchPattern borrowerPre restOfLineGrp (cs4.drop j) = none)
    (h5 : matchPattern purposePre restOfLineGrp (cs5.drop i5) = some (a5, b5))
    (h5' : ∀ j, j < i5 → matchPattern purposePre restOfLineGrp (cs5.drop j) = none) :
    find_first facilityPre facilityGrp (String.mk cs1) =
      some (pyStrip (groupStr a1 b1)) ∧
    (extract_key_terms (String.mk cs1)).facility_amount =
      orNotDetected (some (pyStrip (groupStr a1 b1))) ∧
    find_first marginPre marginGrp (String.mk cs2) =
      some (pyStrip (groupStr a2 b2)) ∧
    (extract_key_terms (String.mk cs2)).margin =
      orNotDetected (some (pyStrip (groupStr a2 b2))) ∧
    find_first maturityPre maturityGrp (String.mk cs3) =
      some (pyStrip (groupStr a3 b3)) ∧
    (extract_key_terms (String.mk cs3)).maturity_date =
      orNotDetected (some (pyStrip (groupStr a3 b3))) ∧
    find_first borrowerPre restOfLineGrp (String.mk cs4) =
      some (pyStrip (groupStr a4 b4)) ∧
    (extract_key_terms (String.mk cs4)).borrower =
      orNotDetected (some (pyStrip (groupStr a4 b4))) ∧
    find_first purposePre restOfLineGrp (String.mk cs5) =
      some (pyStrip (groupStr a5 b5)) ∧
    (extract_key_terms (String.mk cs5)).purpose =
      orNotDetected (some (pyStrip (groupStr a5 b5))) ∧
    (extract_key_terms
        "Loan Agreement\nFacility Amount: EUR 150,000,000\nBorrower: ACME").facility_amount
      = "EUR 150,000,000" ∧
    (extract_key_terms
        "Facility Amount: EUR 150,000,000 and later Facility Amount: USD 9,000").facility_amount
      = "EUR 150,000,000" := by
  have hf1 : find_first facilityPre facilityGrp (String.mk cs1) =
      some (pyStrip (groupStr a1 b1)) := by
    rw [find_first, show (String.mk cs1).data = cs1 from rfl,
      reSearch_eq_of_leftmost facilityPre facilityGrp i1 cs1 a1 b1 h1 h1']
    rfl
  have hf2 : find_first marginPre marginGrp (String.mk cs2) =
      some (pyStrip (groupStr a2 b2)) := by
    rw [find_first, show (String.mk cs2).data = cs2 from rfl,
      reSearch_eq_of_leftmost marginPre marginGrp i2 cs2 a2 b2 h2 h2']
    rfl
  have hf3 : find_first maturityPre maturityGrp (String.mk cs3) =
      some (pyStrip (groupStr a3 b3)) := by
    rw [find_first, show (String.mk cs3).data = cs3 from rfl,
      reSearch_eq_of_leftmost maturityPre maturityGrp i3 cs3 a3 b3 h3 h3']
    rfl
  have hf4 : find_first borrowerPre restOfLineGrp (String.mk cs4) =
      some (pyStrip (groupStr a4 b4)) := by
    rw [find_first, show (String.mk cs4).data = cs4 from rfl,
      reSearch_eq_of_leftmost borrowerPre restOfLineGrp i4 cs4 a4 b4 h4 h4']
    rfl
  have hf5 : find_first purposePre restOfLineGrp (String.mk cs5) =
      some (pyStrip (groupStr a5 b5)) := by
    rw [find_first, show (String.mk cs5).data = cs5 from rfl,
      reSearch_eq_of_leftmost purposePre restOfLineGrp i5 cs5 a5 b5 h5 h5']
    rfl
  exact ⟨hf1, congrArg orNotDetected hf1, hf2, congrArg orNotDetected hf2,
    hf3, congrArg orNotDetected hf3, hf4, congrArg orNotDetected hf4,
    hf5, congrArg orNotDetected hf5, by decide, by decide⟩

/-- Witness for C7: for each of the five fields, a text on which that
field's pattern matches at offset 1 and at no earlier offset. -/
theorem extract_takes_first_match_witness :
    find_first facilityPre facilityGrp (String.mk "zFacility Amount: EUR 1".data) =
      some (pyStrip (groupStr "EUR 1".data [])) ∧
    (extract_key_terms (String.mk "zFacility Amount: EUR 1".data)).facility_amount =
      orNotDetected (some (pyStrip (groupStr "EUR 1".data []))) ∧
    find_first marginPre marginGrp (String.mk "zInterest Margin: 2.5% per annum".data) =
      some (pyStrip (groupStr "2.5% per annum".data [])) ∧
    (extract_key_terms (String.mk "zInterest Margin: 2.5% per annum".data)).margin =
      orNotDetected (some (pyStrip (groupStr "2.5% per annum".data []))) ∧
    find_first maturityPre maturityGrp (String.mk "zMaturity Date: 31 March 2028".data) =
      some (pyStrip (groupStr "31 March 2028".data [])) ∧
    (extract_key_terms (String.mk "zMaturity Date: 31 March 2028".data)).maturity_date =
      orNotDetected (some (pyStrip (groupStr "31 March 2028".data []))) ∧
    find_first borrowerPre restOfLineGrp (String.mk "zBorrower: ACME".data) =
      some (pyStrip (groupStr "ACME".data [])) ∧
    (extract_key_terms (String.mk "zBorrower: ACME".data)).borrower =
      orNotDetected (some (pyStrip (groupStr "ACME".data []))) ∧
    find_first purposePre restOfLineGrp (String.mk "zPurpose: general".data) =
      some (pyStrip (groupStr "general".data [])) ∧
    (extract_key_terms (String.mk "zPurpose: general".data)).purpose =
      orNotDetected (some (pyStrip (groupStr "general".data []))) ∧
    (extract_key_terms
        "Loan Agreement\nFacility Amount: EUR 150,000,000\nBorrower: ACME").facility_amount
      = "EUR 150,000,000" ∧
    (extract_key_terms
        "Facility Amount: EUR 150,000,000 and later Facility Amount: USD 9,000").facility_amount
      = "EUR 150,000,000" :=
  extract_takes_first_match
    "zFacility Amount: EUR 1".data "zInterest Margin: 2.5% per annum".data
    "zMaturity Date: 31 March 2028".data "zBorrower: ACME".data
    "zPurpose: general".data 1 1 1 1 1
    "EUR 1".data [] "2.5% per annum".data [] "31 March 2028".data []
    "ACME".data [] "general".data []
    (by decide)
    (fun j hj => by
      have hz : j = 0 := Nat.lt_one_iff.mp hj
      subst hz
      decide)
    (by decide)
    (fun j hj => by
      have hz : j = 0 := Nat.lt_one_iff.mp hj
      subst hz
      decide)
    (by decide)
    (fun j hj => by
      have hz : j = 0 := Nat.lt_one_iff.mp hj
      subst hz
      decide)
    (by decide)
    (fun j hj => by
      have hz : j = 0 := Nat.lt_one_iff.mp hj
      subst hz
      decide)
    (by decide)
    (fun j hj => by
      have hz : j = 0 := Nat.lt_one_iff.mp hj
      subst hz
      decide)
